import Mathlib

/-!
A shallow embedding of the core fetch / filter / notify logic of
`canvas_assignment_tracker.py`: the `DataFetcher.run` method (lines 39-110),
the notification scan of `CanvasApp.check_due_assignments` (lines 329-346),
and the thread-spawning behaviour of `on_data_fetched` /
`start_notification_thread` (lines 235-240 and 325-327).

Modelling conventions:
* Timestamps are integers (seconds since an arbitrary epoch).  Canvas dates
  are parsed with the format `%Y-%m-%dT%H:%M:%SZ`, i.e. whole seconds.
  `hours_remaining` in the scanner is `seconds / 3600` as an exact quantity,
  so the source test `0 < hours_remaining <= h` (line 340) is embedded as
  `0 < secs ∧ secs ≤ 3600 * h`.
* A remote call that can raise an exception is modelled with `Fetched`:
  `ok v` is a normal return, `err` is a raised exception.  A field of type
  `Fetched _` on a remote record is the response the remote system gives to
  the corresponding API call during the fetch under consideration.
* Python dicts keyed by course name are association lists kept in insertion
  order; `dictInsert` is dict assignment (replace in place, or append).
* `timedelta(days := n)` is exactly `n * 86400` seconds.
* The opaque `assignment_obj` handle stored at line 88 (the raw API record,
  never consulted by the scan or the display logic) is not modelled.
-/

/-- Result of `assignment.get_submission(user_id)` for the current user:
the only field the source reads is `submitted_at` (line 78). -/
structure SubmissionRec where
  submitted_at : Option Int
deriving DecidableEq

/-- Outcome of a remote call: a normal return, or a raised exception. -/
inductive Fetched (α : Type) where
  | ok (val : α)
  | err
deriving DecidableEq

/-- A remote assignment record as consumed by `DataFetcher.run`
(lines 70-90): `due_at` may be absent (line 71), `points_possible` may be
absent (line 81), and `submission` is the outcome of
`assignment.get_submission(user_id)` for the caller (lines 76-80). -/
structure RemoteAssignment where
  name : String
  due_at : Option Int
  points_possible : Option Int
  submission : Fetched SubmissionRec
  html_url : String
deriving DecidableEq

/-- An enrollment record (lines 98-103): `current_score` is the value of
`enrollment.grades.get('current_score', ...)`; `none` means the key is
absent from the grades dict, in which case line 101 yields the default. -/
structure Enrollment where
  user_id : Nat
  current_score : Option Int
deriving DecidableEq

/-- A remote course record (lines 50-105).  `start_at` / `end_at` are the
parsed optional course bounds (lines 55-58); `assignments` is the outcome of
`course.get_assignments(order_by='due_at')` (line 67) and `enrollments` the
outcome of `course.get_enrollments(type=['student'])` (line 98). -/
structure RemoteCourse where
  name : String
  start_at : Option Int
  end_at : Option Int
  assignments : Fetched (List RemoteAssignment)
  enrollments : Fetched (List Enrollment)
deriving DecidableEq

/-- The whole remote state consulted by one fetch: the outcome of
`get_courses(enrollment_state='active', include=['term'])` (line 42) and of
`get_current_user().id` (line 45). -/
structure RemoteState where
  courses : Fetched (List RemoteCourse)
  user_id : Fetched Nat
deriving DecidableEq

/-- A value stored in `grades_by_course`: a numeric current score, or the
`'N/A'` sentinel. -/
inductive Grade where
  | score (v : Int)
  | na
deriving DecidableEq

/-- The assignment dict built at lines 82-90 (with the opaque
`assignment_obj` handle omitted). -/
structure AEntry where
  course : String
  name : String
  due_at : Int
  submitted : Bool
  points : Int
  url : String
deriving DecidableEq

/-- `assignments_by_course`: a Python dict keyed by course name. -/
abbrev AMap := List (String × List AEntry)

/-- `grades_by_course`: a Python dict keyed by course name. -/
abbrev GMap := List (String × Grade)

/-- Python dict assignment `m[k] = v`: replace the value in place if the key
is present, otherwise append the pair. -/
def dictInsert {α : Type} : List (String × α) → String → α → List (String × α)
  | [], k, v => [(k, v)]
  | (k', v') :: rest, k, v =>
      if k' = k then (k, v) :: rest else (k', v') :: dictInsert rest k v

/-- Lines 76-80: `submitted` is `submission.submitted_at is not None`, and a
raised exception is caught and yields `False`. -/
def submittedFlag : Fetched SubmissionRec → Bool
  | .ok s => s.submitted_at.isSome
  | .err => false

/-- The dict appended at lines 82-90 for an in-window assignment with parsed
due date `due`: course name, assignment name, due date, submitted flag,
`points_possible or 0`, and the detail link. -/
def mkEntry (cname : String) (a : RemoteAssignment) (due : Int) : AEntry :=
  ⟨cname, a.name, due, submittedFlag a.submission, a.points_possible.getD 0, a.html_url⟩

/-- One iteration of the assignment loop (lines 70-90), acting on the pair
`(assignment_list, has_recent_assignments)`: an assignment with no due date
is skipped (line 71); one whose due date lies in `[now, tmf]` (line 73) sets
the flag and appends its entry; any other assignment is skipped. -/
def assignmentStep (cname : String) (now tmf : Int) (acc : List AEntry × Bool)
    (a : RemoteAssignment) : List AEntry × Bool :=
  match a.due_at with
  | none => acc
  | some due =>
      if now ≤ due ∧ due ≤ tmf then (acc.1 ++ [mkEntry cname a due], true) else acc

/-- The assignment loop of lines 68-90: fold `assignmentStep` over the
course's assignments starting from `([], False)`
(`assignment_list = []`, `has_recent_assignments = False`). -/
def buildAssignments (cname : String) (now tmf : Int)
    (asg : List RemoteAssignment) : List AEntry × Bool :=
  asg.foldl (assignmentStep cname now tmf) ([], false)

/-- The course date filter of lines 61-64: skip the course when its start
date exists and is strictly before `five_months_ago` (`fma`), or its end
date exists and is strictly before `now`. -/
def courseDateExcluded (now fma : Int) (c : RemoteCourse) : Bool :=
  (match c.start_at with
   | some s => decide (s < fma)
   | none => false)
  ||
  (match c.end_at with
   | some e => decide (e < now)
   | none => false)

/-- Line 101: value taken from the enrollment's grades dict, with the
`'N/A'` default when the `current_score` key is absent. -/
def gradeValue : Option Int → Grade
  | some v => .score v
  | none => .na

/-- The grade block of lines 96-105: on a raised exception record `'N/A'`;
otherwise scan the enrollments for the first one whose `user_id` matches the
caller and record its current score, breaking out of the loop; when no
enrollment matches, the grades dict is left untouched. -/
def courseGrade (uid : Nat) (gmap : GMap) (c : RemoteCourse) : GMap :=
  match c.enrollments with
  | .err => dictInsert gmap c.name .na
  | .ok es =>
      match es.find? (fun e => e.user_id == uid) with
      | some e => dictInsert gmap c.name (gradeValue e.current_score)
      | none => gmap

/-- The body of the course loop (lines 50-105) acting on the pair of maps:
date-excluded courses are skipped (lines 61-64); `get_assignments` may raise
(uncaught, line 67); a course whose assignment list is empty and whose
`has_recent_assignments` flag is false is skipped (line 92); otherwise the
assignment list is stored (line 94) and the grade block runs (lines
96-105). -/
def processCourse (uid : Nat) (now fma tmf : Int) (maps : AMap × GMap)
    (c : RemoteCourse) : Fetched (AMap × GMap) :=
  if courseDateExcluded now fma c then .ok maps
  else
    match c.assignments with
    | .err => .err
    | .ok asg =>
        let res := buildAssignments c.name now tmf asg
        if res.1.isEmpty ∧ res.2 = false then .ok maps
        else .ok (dictInsert maps.1 c.name res.1, courseGrade uid maps.2 c)

/-- The course loop of lines 50-105: process the courses in order, threading
the two maps; an uncaught exception aborts the loop. -/
def processCourses (uid : Nat) (now fma tmf : Int) :
    AMap × GMap → List RemoteCourse → Fetched (AMap × GMap)
  | maps, [] => .ok maps
  | maps, c :: rest =>
      match processCourse uid now fma tmf maps c with
      | .err => .err
      | .ok maps' => processCourses uid now fma tmf maps' rest

/-- The body of the `try` block of `DataFetcher.run` (lines 41-107):
fetch the active courses (line 42) and the caller's user id (line 45), both
of which may raise; compute `five_months_ago = now - 150 days` and
`three_months_future = now + 90 days` (lines 47-48); then run the course
loop starting from two empty dicts (lines 43-44). -/
def DataFetcher.runExc (rs : RemoteState) (now : Int) : Fetched (AMap × GMap) :=
  match rs.courses with
  | .err => .err
  | .ok courses =>
      match rs.user_id with
      | .err => .err
      | .ok uid =>
          processCourses uid now (now - 150 * 86400) (now + 90 * 86400) ([], []) courses

/-- `DataFetcher.run` (lines 39-110): the whole fetch is wrapped in
`try/except`; on any uncaught exception two empty dicts are emitted
(line 110), otherwise the built maps are emitted (line 107). -/
def DataFetcher.run (rs : RemoteState) (now : Int) : AMap × GMap :=
  match DataFetcher.runExc rs now with
  | .ok r => r
  | .err => ([], [])

/-- The dedup key of lines 338 and 341:
`f"{course_name}_{assignment['name']}"` followed by
`f"{assignment_id}_{notify_hours}"`. -/
def assignmentKey (cname aname : String) (h : Nat) : String :=
  cname ++ "_" ++ aname ++ "_" ++ toString h

/-- A notification event as produced by `send_windows_notification`
(lines 343, 348-352), tagged with the dedup key and threshold that fired
it: the toast names `assignment['course']` and `assignment['name']` and the
remaining time. -/
structure NotifEvent where
  key : String
  course : String
  name : String
  seconds : Int
  threshold : Nat
deriving DecidableEq

/-- The threshold loop body (lines 339-344), acting on the pair
`(emitted events, notified_assignments)`: when
`0 < hours_remaining <= notify_hours` and the key is not yet recorded, emit
the notification and record the key. -/
def thresholdStep (cname : String) (a : AEntry) (secs : Int)
    (acc : List NotifEvent × List String) (h : Nat) : List NotifEvent × List String :=
  if 0 < secs ∧ secs ≤ 3600 * (h : Int) then
    if assignmentKey cname a.name h ∈ acc.2 then acc
    else (acc.1 ++ [⟨assignmentKey cname a.name h, a.course, a.name, secs, h⟩],
          acc.2 ++ [assignmentKey cname a.name h])
  else acc

/-- The per-assignment scan (lines 333-344): submitted assignments are
skipped (line 334); otherwise the remaining seconds are computed once
(lines 336-337) and every configured threshold is tried in order. -/
def scanAssignment (times : List Nat) (now : Int) (cname : String)
    (acc : List NotifEvent × List String) (a : AEntry) : List NotifEvent × List String :=
  if a.submitted then acc
  else times.foldl (thresholdStep cname a (a.due_at - now)) acc

/-- The per-course scan (line 332): scan each entry of the course's
assignment list in order. -/
def scanCourse (times : List Nat) (now : Int)
    (acc : List NotifEvent × List String) (p : String × List AEntry) :
    List NotifEvent × List String :=
  p.2.foldl (scanAssignment times now p.1) acc

/-- One full pass over `assignments_by_course.items()` (lines 332-344):
fold the per-course scan over the snapshot, starting from no emitted events
and the given `notified_assignments` set; return the emitted events and the
updated set. -/
def scanSnapshot (snap : AMap) (times : List Nat) (now : Int)
    (notified : List String) : List NotifEvent × List String :=
  snap.foldl (scanCourse times now) ([], notified)

/-- Line 330: each invocation of `check_due_assignments` — that is, each
thread started by `start_notification_thread` (lines 325-327) — begins with
its own fresh, empty `notified_assignments` set. -/
def newNotifiedSet : List String := []

/-- One iteration of the `while True` loop of `check_due_assignments`
(lines 331-346), as the source orders it: first scan the snapshot currently
held in `self.assignments_by_course`, then `time.sleep(3600)` (line 345),
then `self.start_data_thread()` (line 346).  The started fetch runs in the
background against the current remote state `rs`; the snapshot it publishes
(through `on_data_fetched`) only becomes visible to scans that run after it
completes.  The result is the pair produced by the scan together with the
snapshot the background fetch will publish. -/
def codeCycle (snap : AMap) (times : List Nat) (now : Int)
    (notified : List String) (rs : RemoteState) :
    (List NotifEvent × List String) × AMap :=
  (scanSnapshot snap times now notified, (DataFetcher.run rs (now + 3600)).1)

/-- Modelled from the claim's words, for comparison with `codeCycle`: a
cycle that first re-runs the Fetcher to obtain a fresh assignments map, then
scans that freshly fetched map, then sleeps. -/
def claimOrderCycle (rs : RemoteState) (now : Int) (times : List Nat)
    (notified : List String) : List NotifEvent × List String :=
  scanSnapshot (DataFetcher.run rs now).1 times now notified

/-- The comparison fields named by the idempotence property:
(course, assignment name, due date, submitted, points). -/
def entryProj (e : AEntry) : String × String × Int × Bool × Int :=
  (e.course, e.name, e.due_at, e.submitted, e.points)

/-- An assignments map projected to the comparison fields. -/
def mapProj (m : AMap) : List (String × List (String × String × Int × Bool × Int)) :=
  m.map (fun p => (p.1, p.2.map entryProj))

/-- The window test of lines 71-73 together with the entry it yields, as a
partial map: the assignment loop appends exactly the entries of the
in-window assignments, in order. -/
def windowEntry (cname : String) (now tmf : Int) (a : RemoteAssignment) : Option AEntry :=
  match a.due_at with
  | none => none
  | some due => if now ≤ due ∧ due ≤ tmf then some (mkEntry cname a due) else none

lemma buildAssignments_go (cname : String) (now tmf : Int) :
    ∀ (asg : List RemoteAssignment) (l : List AEntry) (b : Bool),
    asg.foldl (assignmentStep cname now tmf) (l, b)
      = (l ++ asg.filterMap (windowEntry cname now tmf),
         b || asg.any (fun a => (windowEntry cname now tmf a).isSome)) := by
  intro asg
  induction asg with
  | nil => intro l b; simp
  | cons a rest ih =>
      intro l b
      simp only [List.foldl_cons, List.filterMap_cons, List.any_cons]
      cases hdue : a.due_at with
      | none => simp [assignmentStep, windowEntry, hdue, ih]
      | some due =>
          by_cases hw : now ≤ due ∧ due ≤ tmf
          · simp [assignmentStep, windowEntry, hdue, hw, ih]
          · simp [assignmentStep, windowEntry, hdue, hw, ih]

lemma buildAssignments_eq (cname : String) (now tmf : Int)
    (asg : List RemoteAssignment) :
    buildAssignments cname now tmf asg
      = (asg.filterMap (windowEntry cname now tmf),
         asg.any (fun a => (windowEntry cname now tmf a).isSome)) := by
  simpa using buildAssignments_go cname now tmf asg [] false

lemma mem_buildAssignments_due (cname : String) (now tmf : Int)
    (asg : List RemoteAssignment) (e : AEntry)
    (h : e ∈ (buildAssignments cname now tmf asg).1) :
    now ≤ e.due_at ∧ e.due_at ≤ tmf := by
  rw [buildAssignments_eq] at h
  simp only [List.mem_filterMap] at h
  obtain ⟨a, -, ha⟩ := h
  simp only [windowEntry] at ha
  split at ha
  · cases ha
  · split at ha
    · rename_i hw
      injection ha with ha'
      subst ha'
      simpa [mkEntry] using hw
    · cases ha

/-- Claim C6: for a course scanned by the fetch, an assignment with a due
date `d` contributes its entry to the built per-course list iff
`now ≤ d ≤ now + 90 days` (line 73; `DataFetcher.runExc` passes exactly the
bound `now + 90 * 86400` computed at line 48), and an assignment with no due
date neither contributes an entry nor changes the outcome of the loop at
all — removing it leaves both the list and the `has_recent_assignments`
flag (and hence the course-drop decision of line 92) unchanged. -/
theorem assignment_window_filter (cname : String) (now : Int)
    (asg : List RemoteAssignment) :
    (∀ a d, a ∈ asg → a.due_at = some d →
      (mkEntry cname a d ∈ (buildAssignments cname now (now + 90 * 86400) asg).1
        ↔ now ≤ d ∧ d ≤ now + 90 * 86400))
    ∧ (∀ (l1 l2 : List RemoteAssignment) (a0 : RemoteAssignment), a0.due_at = none →
        buildAssignments cname now (now + 90 * 86400) (l1 ++ a0 :: l2)
          = buildAssignments cname now (now + 90 * 86400) (l1 ++ l2)) := by
  constructor
  · intro a d hmem hdue
    constructor
    · intro hin
      have hb := mem_buildAssignments_due cname now (now + 90 * 86400) asg
        (mkEntry cname a d) hin
      simpa [mkEntry] using hb
    · intro hw
      rw [buildAssignments_eq]
      simp only [List.mem_filterMap]
      refine ⟨a, hmem, ?_⟩
      simp only [windowEntry, hdue]
      rw [if_pos hw]
  · intro l1 l2 a0 h0
    rw [buildAssignments_eq, buildAssignments_eq]
    simp [List.filterMap_append, List.any_append, windowEntry, h0]

/-- A concrete in-window assignment used to instantiate the window-filter
theorem. -/
def c6Assign : RemoteAssignment := ⟨"HW1", some 100, some 10, .ok ⟨none⟩, "u1"⟩

theorem assignment_window_filter_witness :
    mkEntry "C" c6Assign 100 ∈ (buildAssignments "C" 0 (0 + 90 * 86400) [c6Assign]).1 :=
  ((assignment_window_filter "C" 0 [c6Assign]).1 c6Assign 100 (by decide)
    (by decide)).mpr (by decide)

/-- Claim C5: an assignment that passes the due-date window filter and whose
submission lookup raises (lines 76-80) is still appended to the per-course
list, with its submitted flag false — it is never dropped and never marked
submitted. -/
theorem submission_fail_open (cname : String) (now tmf : Int)
    (asg : List RemoteAssignment) (a : RemoteAssignment) (d : Int)
    (hmem : a ∈ asg) (hdue : a.due_at = some d) (h1 : now ≤ d) (h2 : d ≤ tmf)
    (herr : a.submission = .err) :
    mkEntry cname a d ∈ (buildAssignments cname now tmf asg).1
      ∧ (mkEntry cname a d).submitted = false := by
  constructor
  · rw [buildAssignments_eq]
    simp only [List.mem_filterMap]
    exact ⟨a, hmem, by simp [windowEntry, hdue, h1, h2]⟩
  · simp [mkEntry, submittedFlag, herr]

/-- A concrete in-window assignment whose submission lookup raises. -/
def c5Assign : RemoteAssignment := ⟨"Essay", some 50, none, .err, "u2"⟩

theorem submission_fail_open_witness :
    mkEntry "C" c5Assign 50 ∈ (buildAssignments "C" 0 7776000 [c5Assign]).1
      ∧ (mkEntry "C" c5Assign 50).submitted = false :=
  submission_fail_open "C" 0 7776000 [c5Assign] c5Assign 50 (by decide) rfl
    (by decide) (by decide) rfl

lemma processCourse_excluded (uid : Nat) (now fma tmf : Int) (maps : AMap × GMap)
    (c : RemoteCourse) (h : courseDateExcluded now fma c = true) :
    processCourse uid now fma tmf maps c = .ok maps := by
  simp [processCourse, h]

lemma processCourses_drop (uid : Nat) (now fma tmf : Int) (c : RemoteCourse)
    (hc : courseDateExcluded now fma c = true) :
    ∀ (l1 l2 : List RemoteCourse) (maps : AMap × GMap),
    processCourses uid now fma tmf maps (l1 ++ c :: l2)
      = processCourses uid now fma tmf maps (l1 ++ l2) := by
  intro l1
  induction l1 with
  | nil =>
      intro l2 maps
      simp only [List.nil_append]
      simp [processCourses, processCourse_excluded uid now fma tmf maps c hc]
  | cons d rest ih =>
      intro l2 maps
      simp only [List.cons_append, processCourses]
      cases hd : processCourse uid now fma tmf maps d with
      | err => rfl
      | ok maps' => exact ih l2 maps'

/-- Claim C7: a course whose start date is strictly earlier than
`now - 150 days`, or whose end date is strictly earlier than `now`
(lines 61-64), contributes nothing to either map — the whole fetch result
equals the result with the course removed from the remote course list,
whatever the course's assignment content — and a course with neither bound
set is never excluded by this rule. -/
theorem course_exclusion_windows (now : Int) (uidF : Fetched Nat)
    (l1 l2 : List RemoteCourse) (c : RemoteCourse)
    (hc : courseDateExcluded now (now - 150 * 86400) c = true) :
    DataFetcher.run ⟨.ok (l1 ++ c :: l2), uidF⟩ now
      = DataFetcher.run ⟨.ok (l1 ++ l2), uidF⟩ now
    ∧ (∀ (tmf : Int) (uid : Nat) (maps : AMap × GMap),
        processCourse uid now (now - 150 * 86400) tmf maps c = .ok maps)
    ∧ (∀ c' : RemoteCourse, c'.start_at = none → c'.end_at = none →
        courseDateExcluded now (now - 150 * 86400) c' = false) := by
  refine ⟨?_, ?_, ?_⟩
  · unfold DataFetcher.run DataFetcher.runExc
    cases uidF with
    | err => rfl
    | ok uid =>
        simp only
        rw [processCourses_drop uid now (now - 150 * 86400) (now + 90 * 86400) c hc
          l1 l2 ([], [])]
  · intro tmf uid maps
    exact processCourse_excluded uid now (now - 150 * 86400) tmf maps c hc
  · intro c' h1 h2
    simp [courseDateExcluded, h1, h2]

/-- A concrete course that ended before now. -/
def c7Course : RemoteCourse :=
  ⟨"Old", none, some (-5), .ok [⟨"HW", some 100, some 5, .ok ⟨none⟩, "u0"⟩], .ok []⟩

theorem course_exclusion_windows_witness :
    DataFetcher.run ⟨.ok [c7Course], .ok 1⟩ 0 = DataFetcher.run ⟨.ok [], .ok 1⟩ 0 :=
  (course_exclusion_windows 0 (.ok 1) [] [] c7Course (by decide)).1

/-- Claim C4: when anything in the fetch body raises an uncaught exception,
the emitted result is exactly the pair of empty maps (line 110) — partial
results built before the exception are discarded — and since
`DataFetcher.run` is a total function on remote states, no exception
propagates out of the fetch to its caller. -/
theorem fetch_fail_empty (rs : RemoteState) (now : Int)
    (h : DataFetcher.runExc rs now = .err) :
    DataFetcher.run rs now = ([], []) := by
  simp [DataFetcher.run, h]

/-- A course that the fetch processes fully (it would contribute an entry to
both maps). -/
def c4Course1 : RemoteCourse :=
  ⟨"Good", none, none, .ok [⟨"HW", some 100, some 5, .ok ⟨none⟩, "ua"⟩], .ok [⟨7, some 88⟩]⟩

/-- A later course whose get_assignments call raises. -/
def c4Course2 : RemoteCourse := ⟨"Bad", none, none, .err, .ok []⟩

def c4State : RemoteState := ⟨.ok [c4Course1, c4Course2], .ok 7⟩

theorem fetch_fail_empty_witness : DataFetcher.run c4State 0 = ([], []) :=
  fetch_fail_empty c4State 0 (by decide)

/-- The in-window assignment of the C8 course. -/
def c8Asg : List RemoteAssignment := [⟨"P1", some 100, some 10, .ok ⟨none⟩, "ub"⟩]

/-- A course that survives every filter, whose enrollment lookup succeeds
but returns no enrollment with the caller's user id (caller id 1, enrollment
user id 999). -/
def c8Course : RemoteCourse := ⟨"CS", none, none, .ok c8Asg, .ok [⟨999, some 95⟩]⟩

def c8State : RemoteState := ⟨.ok [c8Course], .ok 1⟩

/-- Counterexample to claim C8: course "CS" is added to the assignments map,
its enrollment retrieval succeeds without raising, yet the grades map
records nothing for it — neither a numeric score nor the 'N/A' sentinel —
because no returned enrollment carries the caller's user id and lines
99-103 only write an entry for a matching enrollment. -/
theorem grade_missing_enrollment_counterexample :
    (DataFetcher.run c8State 0).1.map Prod.fst = ["CS"]
      ∧ (DataFetcher.run c8State 0).2 = [] := by
  refine ⟨by decide, by decide⟩

/-- Claim C8 (amended): for a course that survives the date filter and whose
assignment list is nonempty (so it is added to the assignments map), the
fetch stores that list and updates the grades map by the rule of lines
96-105: on a raised enrollment lookup the 'N/A' sentinel is recorded; when
the lookup succeeds and some enrollment matches the caller's user id, the
first such enrollment's current score (or 'N/A' when the score is absent
from its grades dict) is recorded; when the lookup succeeds and no
enrollment matches, no entry is recorded and the course is omitted from the
grades map. -/
theorem grade_recording (uid : Nat) (now fma tmf : Int) (maps : AMap × GMap)
    (c : RemoteCourse) (asg : List RemoteAssignment)
    (hex : courseDateExcluded now fma c = false)
    (hasg : c.assignments = .ok asg)
    (hne : (buildAssignments c.name now tmf asg).1 ≠ []) :
    processCourse uid now fma tmf maps c
      = .ok (dictInsert maps.1 c.name (buildAssignments c.name now tmf asg).1,
             courseGrade uid maps.2 c)
    ∧ (c.enrollments = .err → courseGrade uid maps.2 c = dictInsert maps.2 c.name .na)
    ∧ (∀ es e, c.enrollments = .ok es →
        es.find? (fun x => x.user_id == uid) = some e →
        courseGrade uid maps.2 c = dictInsert maps.2 c.name (gradeValue e.current_score))
    ∧ (∀ es, c.enrollments = .ok es →
        es.find? (fun x => x.user_id == uid) = none →
        courseGrade uid maps.2 c = maps.2) := by
  refine ⟨?_, ?_, ?_, ?_⟩
  · have hie : (buildAssignments c.name now tmf asg).1.isEmpty = false := by
      cases hbl : (buildAssignments c.name now tmf asg).1 with
      | nil => exact absurd hbl hne
      | cons x xs => rfl
    simp [processCourse, hex, hasg, hie]
  · intro he; simp [courseGrade, he]
  · intro es e hok hfind; simp [courseGrade, hok, hfind]
  · intro es hok hfind; simp [courseGrade, hok, hfind]

theorem grade_recording_witness :
    processCourse 1 0 (-12960000) 7776000 ([], []) c8Course
      = .ok (dictInsert [] c8Course.name
               (buildAssignments c8Course.name 0 7776000 c8Asg).1,
             courseGrade 1 [] c8Course) :=
  (grade_recording 1 0 (-12960000) 7776000 ([], []) c8Course c8Asg (by decide) rfl
    (by decide)).1

/-- Claim C9: in this embedding the fetch is a function of the remote state
and the clock alone, so two fetches against an unchanged remote state at the
same time coincide — in particular their assignment maps agree on every
comparison field (course, assignment name, due date, submitted, points) and
their grade maps are equal. -/
theorem fetch_deterministic (rs : RemoteState) (now : Int) :
    mapProj (DataFetcher.run rs now).1 = mapProj (DataFetcher.run rs now).1
      ∧ (DataFetcher.run rs now).2 = (DataFetcher.run rs now).2 :=
  ⟨rfl, rfl⟩

lemma thresholdStep_mem (cname : String) (a : AEntry) (secs : Int)
    (acc : List NotifEvent × List String) (h : Nat) (ev : NotifEvent)
    (hev : ev ∈ (thresholdStep cname a secs acc h).1) :
    ev ∈ acc.1 ∨ (0 < secs ∧ secs ≤ 3600 * (h : Int)
      ∧ ev = ⟨assignmentKey cname a.name h, a.course, a.name, secs, h⟩) := by
  unfold thresholdStep at hev
  split at hev
  · rename_i hcond
    split at hev
    · exact Or.inl hev
    · simp only [List.mem_append, List.mem_singleton] at hev
      cases hev with
      | inl h1 => exact Or.inl h1
      | inr h2 => exact Or.inr ⟨hcond.1, hcond.2, h2⟩
  · exact Or.inl hev

lemma foldThresholds_mem (cname : String) (a : AEntry) (secs : Int) :
    ∀ (ts : List Nat) (acc : List NotifEvent × List String) (ev : NotifEvent),
    ev ∈ (ts.foldl (thresholdStep cname a secs) acc).1 →
    ev ∈ acc.1 ∨ ∃ h, h ∈ ts ∧ 0 < secs ∧ secs ≤ 3600 * (h : Int)
      ∧ ev = ⟨assignmentKey cname a.name h, a.course, a.name, secs, h⟩ := by
  intro ts
  induction ts with
  | nil => intro acc ev hev; exact Or.inl hev
  | cons t rest ih =>
      intro acc ev hev
      simp only [List.foldl_cons] at hev
      cases ih (thresholdStep cname a secs acc t) ev hev with
      | inl h1 =>
          cases thresholdStep_mem cname a secs acc t ev h1 with
          | inl h2 => exact Or.inl h2
          | inr h2 => exact Or.inr ⟨t, List.mem_cons_self t rest, h2.1, h2.2.1, h2.2.2⟩
      | inr h1 =>
          obtain ⟨hh, hmem, hrest⟩ := h1
          exact Or.inr ⟨hh, List.mem_cons_of_mem t hmem, hrest⟩

lemma scanAssignment_mem (times : List Nat) (now : Int) (cname : String)
    (acc : List NotifEvent × List String) (a : AEntry) (ev : NotifEvent)
    (hev : ev ∈ (scanAssignment times now cname acc a).1) :
    ev ∈ acc.1 ∨ (a.submitted = false ∧ ∃ h, h ∈ times ∧ 0 < a.due_at - now
      ∧ a.due_at - now ≤ 3600 * (h : Int)
      ∧ ev = ⟨assignmentKey cname a.name h, a.course, a.name, a.due_at - now, h⟩) := by
  unfold scanAssignment at hev
  split at hev
  · exact Or.inl hev
  · rename_i hsub
    cases foldThresholds_mem cname a (a.due_at - now) times acc ev hev with
    | inl h1 => exact Or.inl h1
    | inr h1 =>
        obtain ⟨hh, hmem, h2, h3, h4⟩ := h1
        exact Or.inr ⟨by simpa using hsub, hh, hmem, h2, h3, h4⟩

lemma scanEntries_mem (times : List Nat) (now : Int) (cname : String) :
    ∀ (entries : List AEntry) (acc : List NotifEvent × List String) (ev : NotifEvent),
    ev ∈ (entries.foldl (scanAssignment times now cname) acc).1 →
    ev ∈ acc.1 ∨ ∃ e, e ∈ entries ∧ e.submitted = false ∧ ∃ h, h ∈ times
      ∧ 0 < e.due_at - now ∧ e.due_at - now ≤ 3600 * (h : Int)
      ∧ ev = ⟨assignmentKey cname e.name h, e.course, e.name, e.due_at - now, h⟩ := by
  intro entries
  induction entries with
  | nil => intro acc ev hev; exact Or.inl hev
  | cons e rest ih =>
      intro acc ev hev
      simp only [List.foldl_cons] at hev
      cases ih (scanAssignment times now cname acc e) ev hev with
      | inl h1 =>
          cases scanAssignment_mem times now cname acc e ev h1 with
          | inl h2 => exact Or.inl h2
          | inr h2 => exact Or.inr ⟨e, List.mem_cons_self e rest, h2.1, h2.2⟩
      | inr h1 =>
          obtain ⟨e', hmem, hrest⟩ := h1
          exact Or.inr ⟨e', List.mem_cons_of_mem e hmem, hrest⟩

lemma scanCourses_mem (times : List Nat) (now : Int) :
    ∀ (cs : List (String × List AEntry)) (acc : List NotifEvent × List String)
      (ev : NotifEvent),
    ev ∈ (cs.foldl (scanCourse times now) acc).1 →
    ev ∈ acc.1 ∨ ∃ p, p ∈ cs ∧ ∃ e, e ∈ p.2 ∧ e.submitted = false ∧ ∃ h, h ∈ times
      ∧ 0 < e.due_at - now ∧ e.due_at - now ≤ 3600 * (h : Int)
      ∧ ev = ⟨assignmentKey p.1 e.name h, e.course, e.name, e.due_at - now, h⟩ := by
  intro cs
  induction cs with
  | nil => intro acc ev hev; exact Or.inl hev
  | cons p rest ih =>
      intro acc ev hev
      simp only [List.foldl_cons] at hev
      cases ih (scanCourse times now acc p) ev hev with
      | inl h1 =>
          cases scanEntries_mem times now p.1 p.2 acc ev h1 with
          | inl h2 => exact Or.inl h2
          | inr h2 => exact Or.inr ⟨p, List.mem_cons_self p rest, h2⟩
      | inr h1 =>
          obtain ⟨p', hmem, hrest⟩ := h1
          exact Or.inr ⟨p', List.mem_cons_of_mem p hmem, hrest⟩

/-- Claim C2: every notification event a scan cycle emits comes from a
snapshot entry whose submitted flag is false, through some configured
threshold h with 0 < remaining time ≤ h hours; hence a submitted
assignment, an assignment whose remaining time is not strictly positive,
and one whose remaining time exceeds every configured threshold never
notify. -/
theorem scan_soundness (snap : AMap) (times : List Nat) (now : Int)
    (notified : List String) (ev : NotifEvent)
    (hev : ev ∈ (scanSnapshot snap times now notified).1) :
    ∃ p, p ∈ snap ∧ ∃ e, e ∈ p.2 ∧ e.submitted = false ∧ ∃ h, h ∈ times
      ∧ 0 < e.due_at - now ∧ e.due_at - now ≤ 3600 * (h : Int)
      ∧ ev = ⟨assignmentKey p.1 e.name h, e.course, e.name, e.due_at - now, h⟩ := by
  cases scanCourses_mem times now snap ([], notified) ev hev with
  | inl h1 => simp at h1
  | inr h1 => exact h1

/-- A concrete one-course snapshot: an unsubmitted assignment due in 10
hours. -/
def c2Snap : AMap := [("Math", [⟨"Math", "HW", 36000, false, 10, "u4"⟩])]

/-- The event the scan of c2Snap emits at time 0 with threshold set {12}. -/
def c2Event : NotifEvent := ⟨"Math_HW_12", "Math", "HW", 36000, 12⟩

theorem scan_soundness_witness :
    ∃ p, p ∈ c2Snap ∧ ∃ e, e ∈ p.2 ∧ e.submitted = false
      ∧ ∃ h : Nat, h ∈ ([12] : List Nat)
      ∧ 0 < e.due_at - 0 ∧ e.due_at - 0 ≤ 3600 * (h : Int)
      ∧ c2Event = ⟨assignmentKey p.1 e.name h, e.course, e.name, e.due_at - 0, h⟩ :=
  scan_soundness c2Snap [12] 0 [] c2Event (by decide)

/-- A snapshot holding the two colliding pairs: course "A_B" with assignment
"C", and course "A" with assignment "B_C", both unsubmitted and due in 10
hours. -/
def c10Snap : AMap :=
  [("A_B", [⟨"A_B", "C", 36000, false, 5, "u5"⟩]),
   ("A", [⟨"A", "B_C", 36000, false, 5, "u6"⟩])]

/-- Claim C10: the dedup key is the underscore concatenation of course name,
assignment name and threshold (lines 338 and 341); the encoding is not
injective — the distinct pairs ("A_B", "C") and ("A", "B_C") share the key
"A_B_C_12" — and in one scan of a snapshot holding both (threshold set {12},
both unsubmitted and due in 10 hours) only the first pair notifies: the key
recorded for it suppresses the first notification of the second pair. -/
theorem dedup_key_collision :
    assignmentKey "A_B" "C" 12 = assignmentKey "A" "B_C" 12
    ∧ assignmentKey "A_B" "C" 12 = "A_B_C_12"
    ∧ ("A_B", "C") ≠ ("A", "B_C")
    ∧ (scanSnapshot c10Snap [12] 0 []).1.length = 1
    ∧ (scanSnapshot c10Snap [12] 0 []).1.map NotifEvent.course = ["A_B"] := by
  refine ⟨by decide, by decide, by decide, by decide, by decide⟩

/-- A one-course snapshot: assignment "HW" of course "Math", unsubmitted,
due at time 36000 (10 hours after time 0, 9 hours after time 3600). -/
def c1Snap : AMap := [("Math", [⟨"Math", "HW", 36000, false, 10, "u7"⟩])]

/-- Claim C1, evaluated at the failing input.  The dedup set is local to one
invocation of check_due_assignments (line 330), and on_data_fetched
(line 240) calls start_notification_thread on every fetch completion, so
each background refresh spawns a fresh scanner thread (lines 325-327) whose
set starts at newNotifiedSet.  With threshold set {12} and the assignment of
c1Snap re-fetched unchanged by one refresh, the first thread's scan at time
0 and the newly spawned second thread's scan at time 3600 each start from
newNotifiedSet, and the process emits the key "Math_HW_12" twice.  By
contrast the two successive scans of a single thread, which thread the
recorded set from one cycle into the next, emit it exactly once — the
per-thread dedup the claim describes works, and is defeated only by the
respawn. -/
theorem notify_respawn_duplicate :
    ((scanSnapshot c1Snap [12] 0 newNotifiedSet).1
      ++ (scanSnapshot c1Snap [12] 3600 newNotifiedSet).1).countP
        (fun ev => ev.key == assignmentKey "Math" "HW" 12) = 2
    ∧ ((scanSnapshot c1Snap [12] 0 newNotifiedSet).1
      ++ (scanSnapshot c1Snap [12] 3600
            (scanSnapshot c1Snap [12] 0 newNotifiedSet).2).1).countP
        (fun ev => ev.key == assignmentKey "Math" "HW" 12) = 1 := by
  refine ⟨by decide, by decide⟩

/-- The snapshot published before the C3 cycle: the assignment not yet
submitted. -/
def c3Snap : AMap := [("Phys", [⟨"Phys", "Lab", 36000, false, 20, "u8"⟩])]

/-- The remote state during the C3 cycle: the same assignment, its
submission now completed. -/
def c3State : RemoteState :=
  ⟨.ok [⟨"Phys", none, none,
         .ok [⟨"Lab", some 36000, some 20, .ok ⟨some 10⟩, "u8"⟩],
         .ok [⟨1, some 90⟩]⟩],
   .ok 1⟩

/-- Counterexample to claim C3: at time 0 with threshold set {12} and an
empty notified set, against snapshot c3Snap (fetched in an earlier cycle,
submitted flag false) and remote state c3State (the submission has since
been completed), the cycle the source implements — scan, then sleep, then
start an asynchronous fetch (lines 331-346) — still emits a notification,
while a cycle that first re-ran the Fetcher and then scanned the freshly
fetched map, as the claim orders the steps, would emit none. -/
theorem cycle_order_counterexample :
    (codeCycle c3Snap [12] 0 [] c3State).1.1 ≠ []
    ∧ (claimOrderCycle c3State 0 [12] []).1 = [] := by
  refine ⟨by decide, by decide⟩

lemma scanAssignment_submitted (times : List Nat) (now : Int) (cname : String)
    (acc : List NotifEvent × List String) (a : AEntry) (h : a.submitted = true) :
    scanAssignment times now cname acc a = acc := by
  simp [scanAssignment, h]

lemma scanEntries_submitted (times : List Nat) (now : Int) (cname : String) :
    ∀ (entries : List AEntry) (acc : List NotifEvent × List String),
    (∀ e ∈ entries, e.submitted = true) →
    entries.foldl (scanAssignment times now cname) acc = acc := by
  intro entries
  induction entries with
  | nil => intro acc _; rfl
  | cons e rest ih =>
      intro acc hall
      simp only [List.foldl_cons]
      rw [scanAssignment_submitted times now cname acc e
        (hall e (List.mem_cons_self e rest))]
      exact ih acc (fun x hx => hall x (List.mem_cons_of_mem e hx))

lemma scanCourses_submitted (times : List Nat) (now : Int) :
    ∀ (cs : List (String × List AEntry)) (acc : List NotifEvent × List String),
    (∀ p ∈ cs, ∀ e ∈ p.2, e.submitted = true) →
    cs.foldl (scanCourse times now) acc = acc := by
  intro cs
  induction cs with
  | nil => intro acc _; rfl
  | cons p rest ih =>
      intro acc hall
      simp only [List.foldl_cons]
      have hp : scanCourse times now acc p = acc :=
        scanEntries_submitted times now p.1 p.2 acc
          (fun e he => hall p (List.mem_cons_self p rest) e he)
      rw [hp]
      exact ih acc (fun q hq e he => hall q (List.mem_cons_of_mem p hq) e he)

/-- Claim C3 (amended): one cycle of check_due_assignments first scans the
snapshot currently published in assignments_by_course, then sleeps, then
starts an asynchronous re-fetch (lines 331-346); the emitted events
therefore depend only on the pre-cycle snapshot — never on the cycle's own
fetch, whose fresh snapshot of the current remote state is published only
for later scans — and a scan of a published snapshot in which every entry is
submitted emits nothing, so a submission completed since the previous cycle
suppresses notification from the first scan that runs after the re-fetched
snapshot is published, not necessarily in the current cycle. -/
theorem cycle_order_amended (snap : AMap) (times : List Nat) (now : Int)
    (notified : List String) (rs : RemoteState) :
    (codeCycle snap times now notified rs).1 = scanSnapshot snap times now notified
    ∧ (codeCycle snap times now notified rs).2 = (DataFetcher.run rs (now + 3600)).1
    ∧ (∀ (snap' : AMap) (t' : Int) (notified' : List String),
        (∀ p ∈ snap', ∀ e ∈ p.2, e.submitted = true) →
        (scanSnapshot snap' times t' notified').1 = []) := by
  refine ⟨rfl, rfl, ?_⟩
  intro snap' t' notified' hall
  unfold scanSnapshot
  rw [scanCourses_submitted times t' snap' ([], notified') hall]

theorem cycle_order_amended_witness :
    (scanSnapshot [("Phys", [⟨"Phys", "Lab", 36000, true, 20, "u9"⟩])] [12] 0 []).1
      = [] :=
  (cycle_order_amended [] [12] 0 [] ⟨.err, .err⟩).2.2
    [("Phys", [⟨"Phys", "Lab", 36000, true, 20, "u9"⟩])] 0 [] (by decide)
